/-
Verification of the Sanskrit-Documents-Scraper crawl/acquire pipeline.

Shallow embedding of the relevant parts of:
  - crawler.py  (Crawler.crawl, _process_html_page, _download_file, _is_internal,
                 robots handling via urllib.robotparser semantics)
  - delta.py    (process_url, check_url_modified result handling, sha256_file,
                 delta naming and download)
  - metadata.py (crawling-records file path consumed by load_crawling_records_map)

File contents are byte lists; the filesystem is an association list from path
to content.  Machine words in SHA-256 are Nat with explicit reduction mod 2^32.
-/
import Mathlib

namespace Scraper

/-! ## Filesystem model -/

/-- A file system: finite map from path to file content (bytes). -/
abbrev FS := List (String × List Nat)

/-- Read a file: `none` means the path does not exist. -/
def FS.read : FS → String → Option (List Nat)
  | [], _ => none
  | (q, v) :: rest, p => if q = p then some v else FS.read rest p

/-- Remove a path (os.remove / implicit overwrite). -/
def FS.erase : FS → String → FS
  | [], _ => []
  | (q, v) :: rest, p => if q = p then FS.erase rest p else (q, v) :: FS.erase rest p

/-- Write (create or truncate-and-write) a file. -/
def FS.write (fs : FS) (p : String) (v : List Nat) : FS := (p, v) :: FS.erase fs p

theorem FS.read_erase_other (fs : FS) (p q : String) (h : q ≠ p) :
    (fs.erase p).read q = fs.read q := by
  induction fs with
  | nil => rfl
  | cons hd tl ih =>
    obtain ⟨r, v⟩ := hd
    by_cases hr : r = p
    · simp [FS.erase, hr, FS.read, Ne.symm h, ih]
    · by_cases hq : r = q
      · simp [FS.erase, hr, FS.read, hq, h]
      · simp [FS.erase, hr, FS.read, hq, ih]

theorem FS.read_erase_self (fs : FS) (p : String) : (fs.erase p).read p = none := by
  induction fs with
  | nil => rfl
  | cons hd tl ih =>
    obtain ⟨r, v⟩ := hd
    by_cases hr : r = p
    · simp [FS.erase, hr, ih]
    · simp [FS.erase, hr, FS.read, ih]

theorem FS.read_write_self (fs : FS) (p : String) (v : List Nat) :
    (fs.write p v).read p = some v := by
  simp [FS.write, FS.read]

theorem FS.read_write_other (fs : FS) (p q : String) (v : List Nat) (h : q ≠ p) :
    (fs.write p v).read q = fs.read q := by
  simp [FS.write, FS.read, Ne.symm h, FS.read_erase_other fs p q h]

/-! ## SHA-256 (hashlib.sha256), on byte lists, words as Nat mod 2^32 -/

/-- Reduce to a 32-bit word. -/
def wmask (x : Nat) : Nat := x % 4294967296

/-- 32-bit right rotation. -/
def rotr (n x : Nat) : Nat := wmask ((x >>> n) ||| (x <<< (32 - n)))

def sigmaSmall0 (x : Nat) : Nat := (rotr 7 x) ^^^ (rotr 18 x) ^^^ (x >>> 3)
def sigmaSmall1 (x : Nat) : Nat := (rotr 17 x) ^^^ (rotr 19 x) ^^^ (x >>> 10)
def sigmaBig0 (x : Nat) : Nat := (rotr 2 x) ^^^ (rotr 13 x) ^^^ (rotr 22 x)
def sigmaBig1 (x : Nat) : Nat := (rotr 6 x) ^^^ (rotr 11 x) ^^^ (rotr 25 x)

def k256 : List Nat :=
  [1116352408, 1899447441, 3049323471, 3921009573, 961987163,
  1508970993, 2453635748, 2870763221, 3624381080, 310598401,
  607225278, 1426881987, 1925078388, 2162078206, 2614888103,
  3248222580, 3835390401, 4022224774, 264347078, 604807628,
  770255983, 1249150122, 1555081692, 1996064986, 2554220882,
  2821834349, 2952996808, 3210313671, 3336571891, 3584528711,
  113926993, 338241895, 666307205, 773529912, 1294757372,
  1396182291, 1695183700, 1986661051, 2177026350, 2456956037,
  2730485921, 2820302411, 3259730800, 3345764771, 3516065817,
  3600352804, 4094571909, 275423344, 430227734, 506948616,
  659060556, 883997877, 958139571, 1322822218, 1537002063,
  1747873779, 1955562222, 2024104815, 2227730452, 2361852424,
  2428436474, 2756734187, 3204031479, 3329325298]

/-- Running hash state: eight 32-bit words. -/
structure Hash8 where
  a : Nat
  b : Nat
  c : Nat
  d : Nat
  e : Nat
  f : Nat
  g : Nat
  h : Nat
deriving DecidableEq

def sha256Init : Hash8 :=
  ⟨1779033703, 3144134277, 1013904242, 2773480762,
   1359893119, 2600822924, 528734635, 1541459225⟩

/-- Message padding: append 0x80, zeros to 56 mod 64, then the 64-bit
big-endian bit length. -/
def sha256Pad (msg : List Nat) : List Nat :=
  let bitLen := 8 * msg.length
  let padZeros := (119 - msg.length % 64) % 64
  msg ++ [0x80] ++ List.replicate padZeros 0 ++
    (List.range 8).map (fun i => (bitLen >>> (56 - 8 * i)) &&& 255)

/-- Split into 64-byte blocks (structural recursion on a length bound so that
the kernel can evaluate it; each step consumes 64 bytes, so `l.length` fuel
always suffices). -/
def chunks64Aux : Nat → List Nat → List (List Nat)
  | 0, _ => []
  | fuel + 1, l => if l.isEmpty then [] else l.take 64 :: chunks64Aux fuel (l.drop 64)

def chunks64 (l : List Nat) : List (List Nat) := chunks64Aux l.length l

/-- Big-endian 32-bit words of a 64-byte block. -/
def toWords : List Nat → List Nat
  | b0 :: b1 :: b2 :: b3 :: rest =>
      (((b0 * 256 + b1) * 256 + b2) * 256 + b3) :: toWords rest
  | _ => []

/-- Extend the 16-word schedule to 64 words. -/
def schedule (w16 : List Nat) : List Nat :=
  (List.range 48).foldl
    (fun w _ =>
      let n := w.length
      w ++ [wmask (sigmaSmall1 (w.getD (n - 2) 0) + w.getD (n - 7) 0 +
                   sigmaSmall0 (w.getD (n - 15) 0) + w.getD (n - 16) 0)])
    w16

/-- One SHA-256 compression round. -/
def round (st : Hash8) (ki wi : Nat) : Hash8 :=
  let ch := (st.e &&& st.f) ^^^ ((st.e ^^^ 4294967295) &&& st.g)
  let t1 := wmask (st.h + sigmaBig1 st.e + ch + ki + wi)
  let maj := (st.a &&& st.b) ^^^ (st.a &&& st.c) ^^^ (st.b &&& st.c)
  let t2 := wmask (sigmaBig0 st.a + maj)
  ⟨wmask (t1 + t2), st.a, st.b, st.c, wmask (st.d + t1), st.e, st.f, st.g⟩

/-- Compress one 64-byte block into the running state. -/
def compress (st : Hash8) (block : List Nat) : Hash8 :=
  let w := schedule (toWords block)
  let r := (List.range 64).foldl (fun s i => round s (k256.getD i 0) (w.getD i 0)) st
  ⟨wmask (st.a + r.a), wmask (st.b + r.b), wmask (st.c + r.c), wmask (st.d + r.d),
   wmask (st.e + r.e), wmask (st.f + r.f), wmask (st.g + r.g), wmask (st.h + r.h)⟩

def sha256Hash (msg : List Nat) : Hash8 :=
  (chunks64 (sha256Pad msg)).foldl compress sha256Init

/-- Lower-case hex digit. -/
def hexChar (n : Nat) : Char := if n < 10 then Char.ofNat (48 + n) else Char.ofNat (87 + n)

/-- Eight hex chars of one 32-bit word, big-endian nibbles. -/
def hexWord (x : Nat) : List Char :=
  (List.range 8).map (fun i => hexChar ((x / 16 ^ (7 - i)) % 16))

/-- The 64-char hex digest of a hash state. -/
def digestChars (st : Hash8) : List Char :=
  hexWord st.a ++ hexWord st.b ++ hexWord st.c ++ hexWord st.d ++
  hexWord st.e ++ hexWord st.f ++ hexWord st.g ++ hexWord st.h

/-- UTF-8 encoding of one character (url.encode('utf-8')). -/
def utf8Char (c : Char) : List Nat :=
  let n := c.toNat
  if n < 128 then [n]
  else if n < 2048 then [192 ||| (n >>> 6), 128 ||| (n &&& 63)]
  else if n < 65536 then
    [224 ||| (n >>> 12), 128 ||| ((n >>> 6) &&& 63), 128 ||| (n &&& 63)]
  else
    [240 ||| (n >>> 18), 128 ||| ((n >>> 12) &&& 63),
     128 ||| ((n >>> 6) &&& 63), 128 ||| (n &&& 63)]

def utf8Bytes (s : String) : List Nat := (s.data.map utf8Char).flatten

/-- Python `hashlib.sha256(x.encode('utf-8')).hexdigest()`. -/
def sha256HexOfString (s : String) : String := ⟨digestChars (sha256Hash (utf8Bytes s))⟩

/-- Python `hashlib.sha256(bytes).hexdigest()` for file contents. -/
def sha256HexOfBytes (bs : List Nat) : String := ⟨digestChars (sha256Hash bs)⟩

/-- Python `hashlib.sha256(url.encode()).hexdigest()[:8]` — the 8-hex-char fingerprint. -/
def sha8 (s : String) : String := ⟨(digestChars (sha256Hash (utf8Bytes s))).take 8⟩

/-! ## URL parsing helpers (urllib.parse.urlparse, os.path — the parts used,
modelled for absolute http(s) URLs as produced by urljoin) -/

/-- Drop everything up to and including the first `://`; `none` if absent. -/
def dropSchemeAux : List Char → Option (List Char)
  | ':' :: '/' :: '/' :: rest => some rest
  | _ :: rest => dropSchemeAux rest
  | [] => none

/-- Model of `urlparse(u).netloc` for an absolute URL. -/
def urlNetloc (u : String) : String :=
  match dropSchemeAux u.data with
  | some rest => ⟨rest.takeWhile (fun c => !(c == '/' || c == '?' || c == '#'))⟩
  | none => ""

/-- Model of `urlparse(u).path` for an absolute URL. -/
def urlPath (u : String) : String :=
  match dropSchemeAux u.data with
  | some rest =>
      ⟨(rest.dropWhile (fun c => !(c == '/' || c == '?' || c == '#'))).takeWhile
        (fun c => !(c == '?' || c == '#'))⟩
  | none => ""

/-- Python `os.path.basename`: the part after the last `/`. -/
def osBasename (p : String) : String :=
  ⟨(p.data.reverse.takeWhile (fun c => c != '/')).reverse⟩

/-- Whether `os.path.splitext(b)[1]` is non-empty: `b` has a `.` after its
leading dots. -/
def splitextHasExt (b : String) : Bool :=
  (b.data.dropWhile (fun c => c == '.')).contains '.'

/-- Python `str.lower()` (ASCII as used on URLs here). -/
def lowerString (s : String) : String := ⟨s.data.map Char.toLower⟩

/-- Python `str.endswith(t)`. -/
def strEndsWith (s t : String) : Bool := t.data.isSuffixOf s.data

/-- Python `pat in s` substring test. -/
def containsSub : List Char → List Char → Bool
  | [], pat => pat.isEmpty
  | l@(_ :: rest), pat => pat.isPrefixOf l || containsSub rest pat

def strContains (s pat : String) : Bool := containsSub s.data pat.data

/-! ## File naming -/

def DOWNLOAD_DIR : String := "output/files"

/-- crawler.py 131-143: basename from the URL path, with `document.pdf` /
`document.epub` fallback when empty or extension-less. -/
def crawlerBasename (url : String) : String :=
  let basename := osBasename (urlPath url)
  if basename.isEmpty || !(splitextHasExt basename) then
    if strEndsWith (lowerString url) ".pdf" then "document.pdf"
    else if strEndsWith (lowerString url) ".epub" then "document.epub"
    else "document.pdf"
  else basename

/-- crawler.py 144: `local_name = f"{fname_hash}_{basename}"`. -/
def crawlerLocalName (url : String) : String := sha8 url ++ "_" ++ crawlerBasename url

def crawlerLocalPath (url : String) : String := DOWNLOAD_DIR ++ "/" ++ crawlerLocalName url

/-- delta.py 205-208: plain basename when it ends with .pdf/.epub, else the
hashed fallback `{sha8}.pdf`. -/
def deltaFileName (url : String) : String :=
  let filename := osBasename (urlPath url)
  if filename.isEmpty ||
      !(strEndsWith (lowerString filename) ".pdf" || strEndsWith (lowerString filename) ".epub")
  then sha8 url ++ ".pdf" else filename

def deltaFilePath (url : String) : String := DOWNLOAD_DIR ++ "/" ++ deltaFileName url

/-! ## Streaming download model (crawler.py 147-213, delta.py 196-249)

The body arrives as a list of chunks; `iter_content` writes each non-empty
chunk and counts its bytes.  An attempt either fails before the temp file is
opened (`getFailed`), raises after `k` chunks were written (`streamAborted k`),
or streams every chunk (`streamed`). -/

/-- Content written by the chunk loop (empty chunks are skipped by `if chunk:`;
the byte counter equals the written content's length). -/
def streamContent : List (List Nat) → List Nat
  | [] => []
  | c :: cs => if c.isEmpty then streamContent cs else c ++ streamContent cs

/-- Temp-file content after the first `k` chunks. -/
def contentUpTo (chunks : List (List Nat)) (k : Nat) : List Nat :=
  streamContent (chunks.take k)

/-- Python `temp_path = local_path + ".tmp"`. -/
def tmpPath (p : String) : String := p ++ ".tmp"

inductive FetchOutcome
  | getFailed
  | streamAborted (k : Nat)
  | streamed
deriving DecidableEq

structure DlResult where
  fs : FS
  bytesWritten : Nat
deriving DecidableEq

/-- crawler.py `_download_file`, lines 153-200: duplicate-skip check, then
stream to temp, reject empty downloads by removing the temp file, remove the
temp file on any streaming exception, and rename a completed non-empty
download into place.  `cl` is the parsed `Content-Length` header (`none` when
absent); Python truthiness makes the integer `0` falsy in the skip check. -/
def crawlerSkips (fs : FS) (localPath : String) (cl : Option Nat) : Bool :=
  match fs.read localPath, cl with
  | some content, some n => n != 0 && content.length == n
  | _, _ => false

def crawlerDownload (fs : FS) (localPath : String) (cl : Option Nat)
    (chunks : List (List Nat)) (oc : FetchOutcome) : DlResult :=
  if crawlerSkips fs localPath cl then
    ⟨fs, 0⟩
  else
    match oc with
    | .getFailed => ⟨fs, 0⟩
    | .streamAborted k =>
        ⟨(fs.write (tmpPath localPath) (contentUpTo chunks k)).erase (tmpPath localPath),
          (contentUpTo chunks k).length⟩
    | .streamed =>
        let content := streamContent chunks
        let fs1 := fs.write (tmpPath localPath) content
        if content.length == 0 then ⟨fs1.erase (tmpPath localPath), 0⟩
        else ⟨(fs1.erase (tmpPath localPath)).write localPath content, content.length⟩

/-- delta.py 196-227: the refetch download.  Unlike the crawler, a failed or
empty stream leaves the temp file behind (no cleanup in the except branch);
`os.replace` installs a completed non-empty download.  Returns the new
filesystem and the downloaded content on success. -/
def deltaDownload (fs : FS) (filePath : String) (chunks : List (List Nat))
    (oc : FetchOutcome) : FS × Option (List Nat) :=
  match oc with
  | .getFailed => (fs, none)
  | .streamAborted k => (fs.write (tmpPath filePath) (contentUpTo chunks k), none)
  | .streamed =>
      let content := streamContent chunks
      let fs1 := fs.write (tmpPath filePath) content
      if content.length == 0 then (fs1, none)
      else ((fs1.erase (tmpPath filePath)).write filePath content, some content)

/-! ## Change-detection ledger (delta.py `process_url`) -/

/-- One row of the `docs` table. -/
structure LedgerRow where
  lastModified : Option String
  checksum : Option String
  filePath : Option String
  lastChecked : Option String
deriving DecidableEq

inductive Reason
  | lastModifiedChanged
  | checksumChanged
  | fileMissing
  | serverNowProvides
  | newUrl
deriving DecidableEq

/-- delta.py 167-187: the needs_download decision for an existing row, given
the server's current `Last-Modified` value (`none` when the header is absent).
`sha256_file` is modelled by hashing the file's content; a missing file (or a
NULL stored path) takes the `else` branch of the existence check. -/
def decideRefetch (fs : FS) (r : LedgerRow) (currentLm : Option String) : Option Reason :=
  if currentLm.isSome && r.lastModified.isSome && currentLm != r.lastModified then
    some .lastModifiedChanged
  else if currentLm.isNone then
    match r.filePath with
    | some p =>
        match fs.read p with
        | some content =>
            if some (sha256HexOfBytes content) != r.checksum then some .checksumChanged
            else none
        | none => some .fileMissing
    | none => some .fileMissing
  else if r.lastModified.isNone && currentLm.isSome then some .serverNowProvides
  else none

/-- delta.py 163-190: the `needs_download` flag, covering the no-row case. -/
def needsDownload (fs : FS) (row : Option LedgerRow) (currentLm : Option String) : Bool :=
  match row with
  | none => true
  | some r => (decideRefetch fs r currentLm).isSome

/-- Result of `check_url_modified` as consumed by `process_url`. -/
inductive UrlStatus
  | inaccessible
  | accessible (lastModified : Option String)

/-- delta.py 137-259: the whole per-URL transaction.  Inputs: the filesystem,
the stored row (if any), the HEAD result, the body chunks and outcome of the
download attempt (used only when a download is needed), and the current
timestamp `now`.  Returns the row as stored afterwards and the filesystem. -/
def processUrl (fs : FS) (url : String) (row : Option LedgerRow)
    (status : UrlStatus) (chunks : List (List Nat)) (oc : FetchOutcome)
    (now : String) : LedgerRow × FS :=
  match status with
  | .inaccessible =>
      -- lines 150-158: INSERT OR REPLACE with NULL checksum/last_modified/file_path
      (⟨none, none, none, some now⟩, fs)
  | .accessible currentLm =>
      if needsDownload fs row currentLm then
        let fpath := deltaFilePath url
        match deltaDownload fs fpath chunks oc with
        | (fs2, some content) =>
            -- lines 229-238: new checksum of the written file, full row replace
            (⟨currentLm, some (sha256HexOfBytes content), some fpath, some now⟩, fs2)
        | (fs2, none) =>
            -- lines 242-249: restore stored values (or NULLs), bump last_checked
            (match row with
             | some r => ⟨r.lastModified, r.checksum, r.filePath, some now⟩
             | none => ⟨none, none, none, some now⟩,
             fs2)
      else
        -- lines 250-259: UPDATE last_checked only (row exists whenever we skip)
        (match row with
         | some r => { r with lastChecked := some now }
         | none => ⟨none, none, none, some now⟩,
         fs)

/-! ## Robots policy (urllib.robotparser as used by crawler.py 48-65)

crawler.py calls `rp.read()` inside try/except: a fetch error leaves the
parser in its initial state; CPython's `can_fetch` then answers `False` for
everything because `last_checked` is still 0.  An HTTP 401/403 sets
`disallow_all`, another 4xx sets `allow_all`, and a successful fetch parses
the lines (the parse never fails; unrecognized content is ignored). -/

structure RuleLine where
  path : String
  allowance : Bool
deriving DecidableEq

/-- CPython `RuleLine.__init__`: an empty Disallow line means allow all. -/
def mkRuleLine (path : String) (allowance : Bool) : RuleLine :=
  ⟨path, if path.isEmpty && !allowance then true else allowance⟩

structure RobotsEntry where
  useragents : List String
  rulelines : List RuleLine
deriving DecidableEq

structure RobotsState where
  disallowAll : Bool
  allowAll : Bool
  lastChecked : Nat
  entries : List RobotsEntry
  defaultEntry : Option RobotsEntry
deriving DecidableEq

def robotsInit : RobotsState := ⟨false, false, 0, [], none⟩

/-- CPython `_add_entry`. -/
def addEntry (rs : RobotsState) (e : RobotsEntry) : RobotsState :=
  if e.useragents.contains "*" then
    match rs.defaultEntry with
    | none => { rs with defaultEntry := some e }
    | some _ => rs
  else { rs with entries := rs.entries ++ [e] }

/-- Python `str.strip()`. -/
def pyStrip (s : String) : String :=
  ⟨((s.data.dropWhile Char.isWhitespace).reverse.dropWhile Char.isWhitespace).reverse⟩

/-- Split a line at the first `:`. -/
def splitColon : List Char → Option (List Char × List Char)
  | [] => none
  | ':' :: rest => some ([], rest)
  | c :: rest => (splitColon rest).map (fun p => (c :: p.1, p.2))

structure ParseAcc where
  state : Nat
  entry : RobotsEntry
  rs : RobotsState

/-- One iteration of CPython `RobotFileParser.parse`'s line loop. -/
def parseStep (acc : ParseAcc) (rawLine : String) : ParseAcc :=
  let acc1 :=
    if rawLine.isEmpty then
      if acc.state == 1 then { acc with entry := ⟨[], []⟩, state := 0 }
      else if acc.state == 2 then
        { state := 0, entry := ⟨[], []⟩, rs := addEntry acc.rs acc.entry }
      else acc
    else acc
  let line := pyStrip ⟨rawLine.data.takeWhile (fun c => c != '#')⟩
  if line.isEmpty then acc1
  else
    match splitColon line.data with
    | none => acc1
    | some kv =>
        let key := pyStrip (lowerString ⟨kv.1⟩)
        let val := pyStrip ⟨kv.2⟩
        if key == "user-agent" then
          let acc2 :=
            if acc1.state == 2 then
              { acc1 with rs := addEntry acc1.rs acc1.entry, entry := ⟨[], []⟩ }
            else acc1
          { acc2 with
            entry := { acc2.entry with useragents := acc2.entry.useragents ++ [val] },
            state := 1 }
        else if key == "disallow" then
          if acc1.state != 0 then
            { acc1 with
              entry := { acc1.entry with
                         rulelines := acc1.entry.rulelines ++ [mkRuleLine val false] },
              state := 2 }
          else acc1
        else if key == "allow" then
          if acc1.state != 0 then
            { acc1 with
              entry := { acc1.entry with
                         rulelines := acc1.entry.rulelines ++ [mkRuleLine val true] },
              state := 2 }
          else acc1
        else acc1

/-- CPython `RobotFileParser.parse` (sets `modified`, i.e. `lastChecked ≠ 0`). -/
def parseRobots (lines : List String) : RobotsState :=
  let acc := lines.foldl parseStep ⟨0, ⟨[], []⟩, { robotsInit with lastChecked := 1 }⟩
  if acc.state == 2 then addEntry acc.rs acc.entry else acc.rs

/-- How fetching `/robots.txt` went. -/
inductive RobotsFetch
  | unreachable
  | httpError (code : Nat)
  | ok (lines : List String)

/-- Effect of `rp.read()` under crawler.py's try/except: an exception (unreachable host)
is caught and leaves the freshly constructed parser untouched. -/
def robotsRead : RobotsFetch → RobotsState
  | .unreachable => robotsInit
  | .httpError c =>
      if c == 401 || c == 403 then { robotsInit with disallowAll := true }
      else if 400 ≤ c && c < 500 then { robotsInit with allowAll := true }
      else robotsInit
  | .ok lines => parseRobots lines

/-- CPython `Entry.applies_to("*")`: the crawler always queries agent `"*"`. -/
def agentApplies (agents : List String) : Bool :=
  agents.any (fun a => a == "*" || (lowerString a).isEmpty || lowerString a == "*")

def ruleApplies (rl : RuleLine) (path : String) : Bool :=
  rl.path == "*" || rl.path.data.isPrefixOf path.data

/-- CPython `Entry.allowance`: first applicable rule wins, default allow. -/
def entryAllowance (e : RobotsEntry) (path : String) : Bool :=
  match e.rulelines.find? (fun rl => ruleApplies rl path) with
  | some rl => rl.allowance
  | none => true

/-- CPython `can_fetch("*", url)` (path normalization reduced to the URL's
path component, defaulting to "/"). -/
def canFetchStar (rs : RobotsState) (url : String) : Bool :=
  if rs.disallowAll then false
  else if rs.allowAll then true
  else if rs.lastChecked == 0 then false
  else
    let path := if (urlPath url).isEmpty then "/" else urlPath url
    match rs.entries.find? (fun e => agentApplies e.useragents) with
    | some e => entryAllowance e path
    | none =>
        match rs.defaultEntry with
        | some e => entryAllowance e path
        | none => true

/-! ## Crawl engine (crawler.py `Crawler.crawl`, 57-97)

The network is an environment mapping each URL to its response; an HTML page
carries the list of resolved URLs on which `crawl` is recursively invoked
(document links and in-scope page links, per `_process_html_page`).  `fuel`
bounds the recursion depth — a modelling artifact only (the source recurses
without bound). -/

inductive PageResponse
  | fetchFailed
  | document
  | htmlPage (links : List String)
  | otherContent
deriving DecidableEq

abbrev CrawlEnv := List (String × PageResponse)

def envLookup (env : CrawlEnv) (u : String) : PageResponse :=
  match env.find? (fun p => p.1 == u) with
  | some p => p.2
  | none => .fetchFailed

structure CrawlState where
  visited : List String
  fetched : List String
deriving DecidableEq

/-- Method `Crawler.crawl`: visited-set check, robots check, then dispatch to the
session (recorded in `fetched`), recursing through HTML pages' links. -/
def crawl : Nat → CrawlEnv → RobotsState → CrawlState → String → CrawlState
  | 0, _, _, st, _ => st
  | fuel + 1, env, robots, st, url =>
      if st.visited.contains url then st
      else
        let st1 : CrawlState := ⟨url :: st.visited, st.fetched⟩
        if canFetchStar robots url == false then st1
        else
          let st2 : CrawlState := ⟨st1.visited, st1.fetched ++ [url]⟩
          match envLookup env url with
          | .htmlPage links => links.foldl (fun s l => crawl fuel env robots s l) st2
          | _ => st2

/-! ## Link classification (crawler.py `_process_html_page` 104-126, `_is_internal` 215-219) -/

/-- Method `_is_internal`: same netloc as the base URL, or a subdomain of it. -/
def isInternal (baseUrl url : String) : Bool :=
  let baseDomain := urlNetloc baseUrl
  let urlDomain := urlNetloc url
  urlDomain == baseDomain || strEndsWith urlDomain ("." ++ baseDomain)

/-- Lines 116-117: document-link test on the resolved URL and the
fragment-stripped raw href. -/
def isDocumentLink (fullUrl href : String) : Bool :=
  strEndsWith (lowerString fullUrl) ".pdf" || strEndsWith (lowerString fullUrl) ".epub" ||
  strContains (lowerString href) "pdf" || strContains (lowerString href) "epub"

inductive LinkAction
  | document
  | page
  | drop
deriving DecidableEq

/-- Lines 115-121: where one anchor is routed. `fullUrl` is the urljoin
resolution of `href` against the page URL. -/
def classifyLink (baseUrl : String) (visited : List String) (fullUrl href : String) :
    LinkAction :=
  if isDocumentLink fullUrl href then .document
  else if isInternal baseUrl fullUrl && !(visited.contains fullUrl) then .page
  else .drop

/-! ## Spec-side formulations (written from the spec's words, for comparison
with the code-derived definitions above) -/

/-- The decision policy exactly as §4.6 of the spec states it: (1) no entry →
refetch; (2) server now exposes a token where none was stored → refetch;
(3) both tokens present and different → refetch; (4) token available neither
now nor previously → content-hash fallback (file missing → refetch, else
refetch exactly on hash mismatch); (5) otherwise → skip.
`true` means refetch. -/
def specRefetchPolicy (fs : FS) (row : Option LedgerRow) (cur : Option String) : Bool :=
  match row with
  | none => true
  | some r =>
      match cur, r.lastModified with
      | some _, none => true
      | some c, some s => c != s
      | none, none =>
          match r.filePath with
          | none => true
          | some p =>
              match fs.read p with
              | none => true
              | some content => some (sha256HexOfBytes content) != r.checksum
      | none, some _ => false

/-- The amended decision policy: the content-hash fallback applies whenever
the server currently provides no freshness token, regardless of whether one
was stored. -/
def specRefetchAmended (fs : FS) (row : Option LedgerRow) (cur : Option String) : Bool :=
  match row with
  | none => true
  | some r =>
      match cur with
      | none =>
          match r.filePath with
          | none => true
          | some p =>
              match fs.read p with
              | none => true
              | some content => some (sha256HexOfBytes content) != r.checksum
      | some c =>
          match r.lastModified with
          | none => true
          | some s => c != s

/-- Filesystem as visible while the crawler's chunk loop has written the
first `k` chunks to the temp file (crawler.py 170-175). -/
def crawlerStreamingFS (fs : FS) (localPath : String) (chunks : List (List Nat))
    (k : Nat) : FS :=
  fs.write (tmpPath localPath) (contentUpTo chunks k)

/-- metadata.py 34: the crawl-records file its loader reads — which nothing in
crawler.py ever writes. -/
def CRAWLING_RECORDS_JSON : String := "output/crawling_records.json"

/-- Run invariant of the crawl engine: each URL was dispatched at most once,
and only after being marked visited. -/
def CrawlInv (st : CrawlState) : Prop :=
  st.fetched.Nodup ∧ ∀ u ∈ st.fetched, u ∈ st.visited

/-- Lexicographic order on strings (chronological order of the ISO-8601
timestamps stored in `last_checked`). -/
def charListLt : List Char → List Char → Bool
  | [], [] => false
  | [], _ :: _ => true
  | _ :: _, [] => false
  | c :: cs, d :: ds => c < d || (c == d && charListLt cs ds)

def strLt (a b : String) : Bool := charListLt a.data b.data

/-- A lower-case hex digit, as produced by `hexdigest()`. -/
def isHexLowerChar (c : Char) : Bool :=
  ('0' ≤ c && c ≤ '9') || ('a' ≤ c && c ≤ 'f')

/-! # Theorems -/

theorem hexWord_length (x : Nat) : (hexWord x).length = 8 := by
  simp [hexWord]

theorem digestChars_length (st : Hash8) : (digestChars st).length = 64 := by
  simp [digestChars, hexWord_length]

theorem sha8_length (s : String) : (sha8 s).length = 8 := by
  show ((digestChars (sha256Hash (utf8Bytes s))).take 8).length = 8
  rw [List.length_take, digestChars_length]
  rfl

theorem hexChar_hexLower : ∀ n < 16, isHexLowerChar (hexChar n) = true := by decide

theorem hexWord_hexLower (x : Nat) : ∀ c ∈ hexWord x, isHexLowerChar c = true := by
  intro c hc
  simp only [hexWord, List.mem_map, List.mem_range] at hc
  obtain ⟨i, _, rfl⟩ := hc
  exact hexChar_hexLower _ (Nat.mod_lt _ (by decide))

theorem digestChars_hexLower (st : Hash8) :
    ∀ c ∈ digestChars st, isHexLowerChar c = true := by
  intro c hc
  simp only [digestChars, List.mem_append] at hc
  rcases hc with ((((((h | h) | h) | h) | h) | h) | h) | h <;>
    exact hexWord_hexLower _ _ h

theorem ne_tmpPath (p : String) : p ≠ tmpPath p := by
  intro h
  have hlen := congrArg String.length h
  have h4 : (".tmp" : String).length = 4 := rfl
  rw [tmpPath, String.length_append, h4] at hlen
  omega

/-- Claim C2: For every source URL, the file at the final local path is either
the one that was there before the attempt or the complete, non-empty
downloaded content — at every intermediate point of the stream, and for every
outcome of both downloaders (crawler.py `_download_file` and delta.py's
refetch); moreover the crawler removes its temp file on empty results and on
streaming failures. -/
theorem final_path_complete_or_unchanged (fs : FS) (p : String) (cl : Option Nat)
    (chunks : List (List Nat)) (oc : FetchOutcome) (k : Nat) :
    (FS.read (crawlerStreamingFS fs p chunks k) p = FS.read fs p) ∧
    (FS.read (crawlerDownload fs p cl chunks oc).fs p = FS.read fs p ∨
      (FS.read (crawlerDownload fs p cl chunks oc).fs p = some (streamContent chunks) ∧
        streamContent chunks ≠ [])) ∧
    (crawlerSkips fs p cl = false → oc = .streamed → streamContent chunks = [] →
      FS.read (crawlerDownload fs p cl chunks oc).fs (tmpPath p) = none) ∧
    (crawlerSkips fs p cl = false → oc = .streamAborted k →
      FS.read (crawlerDownload fs p cl chunks oc).fs (tmpPath p) = none) ∧
    (FS.read (deltaDownload fs p chunks oc).1 p = FS.read fs p ∨
      (FS.read (deltaDownload fs p chunks oc).1 p = some (streamContent chunks) ∧
        streamContent chunks ≠ [])) := by
  have hp := ne_tmpPath p
  refine ⟨FS.read_write_other _ _ _ _ hp, ?_, ?_, ?_, ?_⟩
  · cases hs : crawlerSkips fs p cl with
    | true => left ; simp [crawlerDownload, hs]
    | false =>
        cases oc with
        | getFailed => left ; simp [crawlerDownload, hs]
        | streamAborted k' =>
            left
            simp only [crawlerDownload, hs, Bool.false_eq_true, if_false]
            rw [FS.read_erase_other _ _ _ hp, FS.read_write_other _ _ _ _ hp]
        | streamed =>
            by_cases hz : (streamContent chunks).length = 0
            · left
              simp only [crawlerDownload, hs, Bool.false_eq_true, if_false, hz]
              rw [if_pos (show ((0 : Nat) == 0) = true from rfl)]
              show ((fs.write (tmpPath p) (streamContent chunks)).erase (tmpPath p)).read p =
                fs.read p
              rw [FS.read_erase_other _ _ _ hp, FS.read_write_other _ _ _ _ hp]
            · right
              have hbeq : ((streamContent chunks).length == 0) = false := by
                simpa using hz
              constructor
              · simp only [crawlerDownload, hs, Bool.false_eq_true, if_false, hbeq,
                  Bool.false_eq_true, if_false]
                exact FS.read_write_self _ _ _
              · intro hnil ; exact hz (by simp [hnil])
  · intro hs hoc hz
    subst hoc
    simp only [crawlerDownload, hs, Bool.false_eq_true, if_false, hz]
    simp only [List.length_nil, Nat.beq_refl, if_true]
    exact FS.read_erase_self _ _
  · intro hs hoc
    subst hoc
    simp only [crawlerDownload, hs, Bool.false_eq_true, if_false]
    exact FS.read_erase_self _ _
  · cases oc with
    | getFailed => left ; rfl
    | streamAborted k' =>
        left
        simp only [deltaDownload]
        exact FS.read_write_other _ _ _ _ hp
    | streamed =>
        by_cases hz : (streamContent chunks).length = 0
        · left
          simp only [deltaDownload, hz, Nat.beq_refl, if_true]
          exact FS.read_write_other _ _ _ _ hp
        · right
          have hbeq : ((streamContent chunks).length == 0) = false := by simpa using hz
          refine ⟨?_, fun hnil => hz (by simp [hnil])⟩
          simp only [deltaDownload, hbeq, Bool.false_eq_true, if_false]
          exact FS.read_write_self _ _ _

/-- Witness for `final_path_complete_or_unchanged` at a concrete empty download. -/
theorem final_path_complete_or_unchanged_witness :
    crawlerSkips [] "output/files/aa_x.pdf" none = false ∧
    streamContent [[]] = [] ∧
    FS.read (crawlerDownload [] "output/files/aa_x.pdf" none [[]] .streamed).fs
      (tmpPath "output/files/aa_x.pdf") = none :=
  ⟨by decide, by decide,
    (final_path_complete_or_unchanged [] "output/files/aa_x.pdf" none [[]] .streamed 0).2.2.1
      (by decide) rfl (by decide)⟩

/-- Claim C5 counterexample: A file that exists at the destination with size
equal to the server-declared `Content-Length: 0` is *not* skipped: Python's
truthiness check on the converted integer discards a declared length of 0, so
the store proceeds to download and overwrite. -/
theorem zero_length_match_not_skipped :
    FS.read [("output/files/aa_x.pdf", ([] : List Nat))] "output/files/aa_x.pdf" = some [] ∧
    ([] : List Nat).length = 0 ∧
    crawlerDownload [("output/files/aa_x.pdf", [])] "output/files/aa_x.pdf" (some 0)
        [[7]] .streamed ≠
      ⟨[("output/files/aa_x.pdf", [])], 0⟩ := by
  refine ⟨rfl, rfl, ?_⟩
  decide

/-- Claim C5 amended: If a file exists at the computed destination, its size
equals the server-declared content length, and that length is non-zero, then
`_download_file` skips the re-download: the filesystem is unchanged and zero
bytes are written. -/
theorem existing_full_size_file_skips_download (fs : FS) (p : String) (n : Nat)
    (chunks : List (List Nat)) (oc : FetchOutcome) (content : List Nat)
    (hread : FS.read fs p = some content) (hlen : content.length = n) (hn : n ≠ 0) :
    crawlerDownload fs p (some n) chunks oc = ⟨fs, 0⟩ := by
  have hs : crawlerSkips fs p (some n) = true := by
    simp [crawlerSkips, hread, hlen, hn]
  simp [crawlerDownload, hs]

/-- Witness for `existing_full_size_file_skips_download`. -/
theorem existing_full_size_file_skips_download_witness :
    FS.read [("output/files/aa_x.pdf", [1, 2, 3])] "output/files/aa_x.pdf" = some [1, 2, 3] ∧
    crawlerDownload [("output/files/aa_x.pdf", [1, 2, 3])] "output/files/aa_x.pdf" (some 3)
        [[9]] .streamed =
      ⟨[("output/files/aa_x.pdf", [1, 2, 3])], 0⟩ :=
  ⟨by decide,
    existing_full_size_file_skips_download _ _ _ _ _ [1, 2, 3] (by decide) (by decide)
      (by decide)⟩

/-- Claim C9: A `_download_file` run — successful or not — touches only the
final path and its temp sibling: in particular the crawling-records file that
metadata.py's `load_crawling_records_map` reads is never written, so no crawl
record is emitted for any acquisition (the emission the spec requires simply
does not exist in crawler.py). -/
theorem download_writes_no_crawl_record (fs : FS) (p : String) (cl : Option Nat)
    (chunks : List (List Nat)) (oc : FetchOutcome)
    (h1 : CRAWLING_RECORDS_JSON ≠ p) (h2 : CRAWLING_RECORDS_JSON ≠ tmpPath p) :
    FS.read (crawlerDownload fs p cl chunks oc).fs CRAWLING_RECORDS_JSON =
      FS.read fs CRAWLING_RECORDS_JSON := by
  cases hs : crawlerSkips fs p cl with
  | true => simp [crawlerDownload, hs]
  | false =>
      cases oc with
      | getFailed => simp [crawlerDownload, hs]
      | streamAborted k =>
          simp only [crawlerDownload, hs, Bool.false_eq_true, if_false]
          rw [FS.read_erase_other _ _ _ h2, FS.read_write_other _ _ _ _ h2]
      | streamed =>
          by_cases hz : (streamContent chunks).length = 0
          · simp only [crawlerDownload, hs, Bool.false_eq_true, if_false, hz]
            rw [if_pos (show ((0 : Nat) == 0) = true from rfl)]
            show ((fs.write (tmpPath p) (streamContent chunks)).erase
                (tmpPath p)).read CRAWLING_RECORDS_JSON = fs.read CRAWLING_RECORDS_JSON
            rw [FS.read_erase_other _ _ _ h2, FS.read_write_other _ _ _ _ h2]
          · have hbeq : ((streamContent chunks).length == 0) = false := by simpa using hz
            simp only [crawlerDownload, hs, Bool.false_eq_true, if_false, hbeq]
            rw [FS.read_write_other _ _ _ _ h1, FS.read_erase_other _ _ _ h2,
              FS.read_write_other _ _ _ _ h2]

/-- Witness for `download_writes_no_crawl_record` at a concrete successful
download: the records file is absent before and after. -/
theorem download_writes_no_crawl_record_witness :
    FS.read (crawlerDownload [] "output/files/aa_b.pdf" none [[37]] .streamed).fs
        CRAWLING_RECORDS_JSON =
      FS.read ([] : FS) CRAWLING_RECORDS_JSON :=
  download_writes_no_crawl_record [] "output/files/aa_b.pdf" none [[37]] .streamed
    (by decide) (by decide)

/-- Claim C7: Every outcome of `process_url` — skip, refetch, refetch-failure,
or unreachable URL — stores the call's timestamp into `last_checked`; hence
whenever the clock value exceeds the stored one, `last_checked` strictly
advances. -/
theorem process_url_updates_last_checked (fs : FS) (url : String)
    (row : Option LedgerRow) (status : UrlStatus) (chunks : List (List Nat))
    (oc : FetchOutcome) (now : String) :
    ((processUrl fs url row status chunks oc now).1).lastChecked = some now ∧
    (∀ r t0, row = some r → r.lastChecked = some t0 → strLt t0 now = true →
      ∃ t1, ((processUrl fs url row status chunks oc now).1).lastChecked = some t1 ∧
        strLt t0 t1 = true) := by
  have hmain : ((processUrl fs url row status chunks oc now).1).lastChecked = some now := by
    cases status with
    | inaccessible => rfl
    | accessible lm =>
        simp only [processUrl]
        rcases hdd : deltaDownload fs (deltaFilePath url) chunks oc with ⟨fs2, res⟩
        cases hn : needsDownload fs row lm with
        | true =>
            simp only [hn, if_true, hdd]
            cases res with
            | some content => rfl
            | none => cases row <;> rfl
        | false =>
            simp only [hn, Bool.false_eq_true, if_false]
            cases row <;> rfl
  exact ⟨hmain, fun _ t0 _ _ hlt => ⟨now, hmain, hlt⟩⟩

/-- Witness for `process_url_updates_last_checked`. -/
theorem process_url_updates_last_checked_witness :
    strLt "2024-01-01T00:00:00Z" "2025-06-01T00:00:00Z" = true ∧
    ∃ t1,
      ((processUrl [] "http://a.org/x.pdf"
          (some ⟨none, none, none, some "2024-01-01T00:00:00Z"⟩) .inaccessible []
          .getFailed "2025-06-01T00:00:00Z").1).lastChecked = some t1 ∧
      strLt "2024-01-01T00:00:00Z" t1 = true :=
  ⟨by decide,
    (process_url_updates_last_checked [] "http://a.org/x.pdf"
        (some ⟨none, none, none, some "2024-01-01T00:00:00Z"⟩) .inaccessible []
        .getFailed "2025-06-01T00:00:00Z").2
      ⟨none, none, none, some "2024-01-01T00:00:00Z"⟩ "2024-01-01T00:00:00Z" rfl rfl
      (by decide)⟩

/-- Claim C1 counterexample: With a fully populated ledger row, a mere
failed-HEAD (unreachable / non-200) attempt does *not* leave the stored
checksum, freshness token and file path unchanged: `process_url` replaces
the row with NULLs (delta.py 153-157). -/
theorem inaccessible_url_clears_ledger_fields :
    (processUrl [] "http://a.org/x.pdf"
        (some ⟨some "T1", some "abc", some "output/files/x.pdf", some "t0"⟩)
        .inaccessible [] .getFailed "t1").1 =
      ⟨none, none, none, some "t1"⟩ ∧
    ((processUrl [] "http://a.org/x.pdf"
        (some ⟨some "T1", some "abc", some "output/files/x.pdf", some "t0"⟩)
        .inaccessible [] .getFailed "t1").1).checksum ≠ some "abc" := by
  exact ⟨rfl, by decide⟩

/-- Claim C1 amended: If the URL is reachable and the refetch *download*
fails (request exception, bad status, streaming error, or empty body), the
stored checksum/freshness-token/file-path survive and only `last_checked`
advances; but when the URL itself is unreachable or returns non-200, the
stored fields are replaced by NULLs (with `last_checked` still advancing). -/
theorem failed_download_preserves_ledger_fields (fs : FS) (url : String)
    (r : LedgerRow) (lm : Option String) (chunks : List (List Nat))
    (oc : FetchOutcome) (now : String)
    (hfail : (deltaDownload fs (deltaFilePath url) chunks oc).2 = none) :
    (processUrl fs url (some r) (.accessible lm) chunks oc now).1 =
      ⟨r.lastModified, r.checksum, r.filePath, some now⟩ ∧
    (processUrl fs url (some r) .inaccessible chunks oc now).1 =
      ⟨none, none, none, some now⟩ := by
  constructor
  · simp only [processUrl]
    rcases hdd : deltaDownload fs (deltaFilePath url) chunks oc with ⟨fs2, res⟩
    rw [hdd] at hfail
    cases res with
    | some content => exact absurd hfail (by simp)
    | none =>
        cases hn : needsDownload fs (some r) lm with
        | true => simp only [hn, if_true, hdd]
        | false => simp only [hn, Bool.false_eq_true, if_false]
  · rfl

/-- Witness for `failed_download_preserves_ledger_fields`: a changed
`Last-Modified` forces a refetch, the GET fails, and the row's stored fields
survive. -/
theorem failed_download_preserves_ledger_fields_witness :
    (deltaDownload [] (deltaFilePath "http://a.org/x.pdf") [] .getFailed).2 = none ∧
    (processUrl [] "http://a.org/x.pdf" (some ⟨some "T1", some "abc", none, some "t0"⟩)
        (.accessible (some "T2")) [] .getFailed "t1").1 =
      ⟨some "T1", some "abc", none, some "t1"⟩ :=
  ⟨rfl,
    (failed_download_preserves_ledger_fields [] "http://a.org/x.pdf"
        ⟨some "T1", some "abc", none, some "t0"⟩ (some "T2") [] .getFailed "t1" rfl).1⟩

/-- Claim C3 counterexample: A row with a stored freshness token whose server
stopped sending `Last-Modified` and whose local file is missing: the claim's
policy (token neither now nor previously required for the hash fallback)
says skip, but the code refetches ("Local file missing or path incorrect"). -/
theorem stored_token_absent_now_diverges :
    specRefetchPolicy []
        (some ⟨some "T1", some "abc", some "output/files/x.pdf", some "t0"⟩) none = false ∧
    needsDownload []
        (some ⟨some "T1", some "abc", some "output/files/x.pdf", some "t0"⟩) none = true := by
  exact ⟨rfl, rfl⟩

/-- Claim C3 amended: The code's decision equals the amended policy: no
entry → refetch; server sends no token now → content-hash fallback (missing
file or NULL path → refetch, else refetch exactly on hash mismatch),
regardless of any stored token; token now but none stored → refetch; both
tokens → refetch exactly when they differ. -/
theorem refetch_decision_matches_amended_policy (fs : FS) (row : Option LedgerRow)
    (cur : Option String) :
    needsDownload fs row cur = specRefetchAmended fs row cur := by
  cases row with
  | none => rfl
  | some r =>
      cases cur with
      | none =>
          cases hfp : r.filePath with
          | none => simp [needsDownload, decideRefetch, specRefetchAmended, hfp]
          | some p =>
              cases hrd : FS.read fs p with
              | none => simp [needsDownload, decideRefetch, specRefetchAmended, hfp, hrd]
              | some content =>
                  by_cases hb : some (sha256HexOfBytes content) = r.checksum <;>
                    simp [needsDownload, decideRefetch, specRefetchAmended, hfp, hrd, hb]
      | some c =>
          cases hlm : r.lastModified with
          | none =>
              simp [needsDownload, decideRefetch, specRefetchAmended, hlm]
          | some s =>
              by_cases hc : c = s
              · subst hc
                simp [needsDownload, decideRefetch, specRefetchAmended, hlm]
              · simp [needsDownload, decideRefetch, specRefetchAmended, hlm, hc]

/-- Claim C4: When the robots.txt fetch raises (origin unreachable), crawler.py
catches the exception and keeps the unread parser; CPython's `can_fetch`
then answers `False` for *every* URL (`last_checked` is still 0), so `crawl`
dispatches nothing for that origin — the opposite of the claimed permissive
default. -/
theorem unreachable_robots_blocks_every_url (url : String) (fuel : Nat)
    (env : CrawlEnv) (st : CrawlState) :
    canFetchStar (robotsRead .unreachable) url = false ∧
    (crawl fuel env (robotsRead .unreachable) st url).fetched = st.fetched := by
  have hcf : canFetchStar (robotsRead .unreachable) url = false := rfl
  refine ⟨hcf, ?_⟩
  cases fuel with
  | zero => rfl
  | succ fuel =>
      simp only [crawl]
      by_cases hv : url ∈ st.visited
      · simp [hv]
      · simp [hv, hcf]

/-- Visited-set monotonicity of `crawl`, jointly with its child-list fold. -/
theorem crawl_visited_mono (fuel : Nat) (env : CrawlEnv) (robots : RobotsState) :
    (∀ st url u, u ∈ st.visited → u ∈ (crawl fuel env robots st url).visited) ∧
    (∀ (ls : List String) st u, u ∈ st.visited →
      u ∈ (ls.foldl (fun s l => crawl fuel env robots s l) st).visited) := by
  induction fuel with
  | zero =>
      refine ⟨fun st url u h => h, ?_⟩
      intro ls
      induction ls with
      | nil => exact fun st u h => h
      | cons l ls ih => exact fun st u h => ih st u h
  | succ fuel ihf =>
      have hc : ∀ st url u, u ∈ st.visited →
          u ∈ (crawl (fuel + 1) env robots st url).visited := by
        intro st url u h
        simp only [crawl]
        split
        · exact h
        · split
          · exact List.mem_cons_of_mem _ h
          · split
            · exact ihf.2 _ _ u (List.mem_cons_of_mem _ h)
            · exact List.mem_cons_of_mem _ h
      refine ⟨hc, ?_⟩
      intro ls
      induction ls with
      | nil => exact fun st u h => h
      | cons l ls ih => exact fun st u h => ih _ u (hc st l u h)

/-- A positive-fuel `crawl` call leaves its URL in the visited set. -/
theorem crawl_marks_visited (fuel : Nat) (env : CrawlEnv) (robots : RobotsState)
    (st : CrawlState) (url : String) (h : 0 < fuel) :
    url ∈ (crawl fuel env robots st url).visited := by
  cases fuel with
  | zero => exact absurd h (by decide)
  | succ fuel =>
      simp only [crawl]
      split
      · next hv => exact List.mem_of_elem_eq_true hv
      · split
        · exact List.mem_cons_self _ _
        · split
          · exact (crawl_visited_mono fuel env robots).2 _ _ url (List.mem_cons_self _ _)
          · exact List.mem_cons_self _ _

/-- Calling `crawl` on an already-visited URL is the identity. -/
theorem crawl_noop_of_visited (fuel : Nat) (env : CrawlEnv) (robots : RobotsState)
    (st : CrawlState) (url : String) (h : url ∈ st.visited) :
    crawl fuel env robots st url = st := by
  cases fuel with
  | zero => rfl
  | succ fuel => simp [crawl, h]

/-- Function `crawl` preserves the at-most-once-dispatch invariant, jointly with its
child-list fold. -/
theorem crawl_inv_preserved (fuel : Nat) (env : CrawlEnv) (robots : RobotsState) :
    (∀ st url, CrawlInv st → CrawlInv (crawl fuel env robots st url)) ∧
    (∀ (ls : List String) st, CrawlInv st →
      CrawlInv (ls.foldl (fun s l => crawl fuel env robots s l) st)) := by
  induction fuel with
  | zero =>
      refine ⟨fun st url h => h, ?_⟩
      intro ls
      induction ls with
      | nil => exact fun st h => h
      | cons l ls ih => exact fun st h => ih st h
  | succ fuel ihf =>
      have hc : ∀ st url, CrawlInv st → CrawlInv (crawl (fuel + 1) env robots st url) := by
        intro st url hInv
        simp only [crawl]
        split
        · exact hInv
        · next hv =>
            have hnv : url ∉ st.visited := fun hmem =>
              hv (List.elem_eq_true_of_mem hmem)
            have hnf : url ∉ st.fetched := fun hmem => hnv (hInv.2 url hmem)
            have hInv2 : CrawlInv ⟨url :: st.visited, st.fetched ++ [url]⟩ := by
              constructor
              · rw [List.nodup_append]
                refine ⟨hInv.1, List.nodup_singleton url, ?_⟩
                intro a ha hb
                rw [List.mem_singleton] at hb
                exact hnf (hb ▸ ha)
              · intro u hu
                rcases List.mem_append.mp hu with h1 | h1
                · exact List.mem_cons_of_mem _ (hInv.2 u h1)
                · simp only [List.mem_singleton] at h1
                  exact h1 ▸ List.mem_cons_self _ _
            split
            · exact ⟨hInv.1, fun u hu => List.mem_cons_of_mem _ (hInv.2 u hu)⟩
            · split
              · exact ihf.2 _ _ hInv2
              · exact hInv2
      refine ⟨hc, ?_⟩
      intro ls
      induction ls with
      | nil => exact fun st h => h
      | cons l ls ih => exact fun st h => ih _ (hc st l h)

/-- Claim C6: Within one run, the second and every later `crawl` call on a URL
is a no-op, and the list of URLs dispatched to the fetcher never contains a
duplicate (visited-set idempotence). -/
theorem crawl_second_call_noop (fuel₁ fuel₂ : Nat) (env : CrawlEnv)
    (robots : RobotsState) (st : CrawlState) (url : String)
    (h : 0 < fuel₁) (hInv : CrawlInv st) :
    crawl fuel₂ env robots (crawl fuel₁ env robots st url) url =
      crawl fuel₁ env robots st url ∧
    CrawlInv (crawl fuel₁ env robots st url) :=
  ⟨crawl_noop_of_visited fuel₂ env robots _ url
      (crawl_marks_visited fuel₁ env robots st url h),
   (crawl_inv_preserved fuel₁ env robots).1 st url hInv⟩

/-- Witness for `crawl_second_call_noop` on a two-page site (the second page
links back to the first). -/
theorem crawl_second_call_noop_witness :
    crawl 2 [("a", .htmlPage ["b"]), ("b", .htmlPage ["a"])] (robotsRead (.httpError 404))
        (crawl 3 [("a", .htmlPage ["b"]), ("b", .htmlPage ["a"])]
          (robotsRead (.httpError 404)) ⟨[], []⟩ "a") "a" =
      crawl 3 [("a", .htmlPage ["b"]), ("b", .htmlPage ["a"])]
        (robotsRead (.httpError 404)) ⟨[], []⟩ "a" ∧
    CrawlInv (crawl 3 [("a", .htmlPage ["b"]), ("b", .htmlPage ["a"])]
      (robotsRead (.httpError 404)) ⟨[], []⟩ "a") :=
  crawl_second_call_noop 3 2 [("a", .htmlPage ["b"]), ("b", .htmlPage ["a"])]
    (robotsRead (.httpError 404)) ⟨[], []⟩ "a" (by decide)
    ⟨List.nodup_nil, by simp⟩

/-- Claim C10: Per-anchor routing in `_process_html_page`: an anchor whose
resolved URL ends in `.pdf`/`.epub` (case-insensitive) or whose href contains
`pdf`/`epub` is dispatched for download with no domain check at all, while a
non-document anchor is crawled as a page exactly when it is on the root
domain (or a subdomain) and unvisited, and dropped when off-domain. -/
theorem document_links_bypass_domain_scope (baseUrl : String) (visited : List String)
    (fullUrl href : String) :
    (isDocumentLink fullUrl href = true →
      classifyLink baseUrl visited fullUrl href = .document) ∧
    (isDocumentLink fullUrl href = false →
      (classifyLink baseUrl visited fullUrl href = .page ↔
        isInternal baseUrl fullUrl = true ∧ fullUrl ∉ visited) ∧
      (isInternal baseUrl fullUrl = false →
        classifyLink baseUrl visited fullUrl href = .drop)) := by
  constructor
  · intro h
    simp [classifyLink, h]
  · intro h
    cases hi : isInternal baseUrl fullUrl <;>
      by_cases hv : fullUrl ∈ visited <;>
        simp [classifyLink, h, hi, hv]

/-- Witness for `document_links_bypass_domain_scope`: an off-domain `.pdf`
anchor is dispatched for download, an off-domain page anchor is dropped. -/
theorem document_links_bypass_domain_scope_witness :
    classifyLink "https://a.org/page.html" [] "https://other.org/d.pdf" "/d.pdf" =
      .document ∧
    classifyLink "https://a.org/page.html" [] "https://other.org/x.html" "/x.html" =
      .drop :=
  ⟨(document_links_bypass_domain_scope "https://a.org/page.html" [] "https://other.org/d.pdf"
      "/d.pdf").1 (by decide),
   ((document_links_bypass_domain_scope "https://a.org/page.html" [] "https://other.org/x.html"
      "/x.html").2 (by decide)).2 (by decide)⟩

/-- Claim C8 counterexample: For `http://a.org/b.pdf` the crawler stores
`<8-hex-fingerprint>_b.pdf` but the ledger's refetch path stores plain
`b.pdf` — the two naming schemes disagree. -/
theorem crawler_and_delta_names_differ :
    deltaFileName "http://a.org/b.pdf" = "b.pdf" ∧
    crawlerLocalName "http://a.org/b.pdf" ≠ deltaFileName "http://a.org/b.pdf" := by
  constructor
  · decide
  · have hb : crawlerBasename "http://a.org/b.pdf" = "b.pdf" := by decide
    intro heq
    have h1 : (crawlerLocalName "http://a.org/b.pdf").length = 14 := by
      show (sha8 "http://a.org/b.pdf" ++ "_" ++ crawlerBasename "http://a.org/b.pdf").length
        = 14
      rw [String.length_append, String.length_append, sha8_length, hb]
      rfl
    have h2 : deltaFileName "http://a.org/b.pdf" = "b.pdf" := by decide
    rw [heq, h2] at h1
    exact absurd h1 (by decide)

/-- Claim C8 amended: The crawler's stored name is deterministic and has the
claimed `<8-hex-char-fingerprint>_<basename>` shape (the fingerprint is
exactly 8 lower-case hex characters); the ledger's refetch path instead
names the file either by the plain URL basename or by `<8-hex>.pdf`, so the
two call sites do not share one naming scheme. -/
theorem naming_scheme_fingerprint (u : String) :
    (sha8 u).length = 8 ∧
    (∀ c ∈ (sha8 u).data, isHexLowerChar c = true) ∧
    crawlerLocalName u = sha8 u ++ "_" ++ crawlerBasename u ∧
    (deltaFileName u = osBasename (urlPath u) ∨ deltaFileName u = sha8 u ++ ".pdf") := by
  refine ⟨sha8_length u, ?_, rfl, ?_⟩
  · intro c hc
    have hc2 : c ∈ digestChars (sha256Hash (utf8Bytes u)) :=
      List.take_subset 8 _ hc
    exact digestChars_hexLower _ c hc2
  · simp only [deltaFileName]
    split
    · right ; rfl
    · left ; rfl

set_option maxRecDepth 8192 in
/-- Witness for `naming_scheme_fingerprint` at a concrete URL. -/
theorem naming_scheme_fingerprint_witness :
    (sha8 "http://a.org/b.pdf").length = 8 ∧
    isHexLowerChar '8' = true :=
  ⟨(naming_scheme_fingerprint "http://a.org/b.pdf").1,
   (naming_scheme_fingerprint "http://a.org/b.pdf").2.1 '8' (by decide)⟩

end Scraper
